import Mathlib

/-!
Shallow embedding of the InstrumentKit SRS830 lock-in amplifier driver
(src/instruments/instruments/srs/srs830.py) and the Thorlabs TC200
temperature controller driver (src/instruments/instruments/thorlabs/tc200.py).

The communication channel is modelled as a reply environment
`env : ℕ → String` (the reply to the k-th query issued so far) together
with an explicit trace of wire events.  Python numbers are modelled as ℚ,
Python exceptions as an error type `PyErr`, and the Python string methods
used by the drivers (`lower`, `strip`, `replace`, `split`, `find`) are
re-implemented structurally over `List Char` with Python semantics.
-/

/-- Python exception classes raised by the modelled code paths. -/
inductive PyErr where
  | valueError
  | typeError
  | ioError
  | keyError
  | attributeError
  | zeroDivError
deriving DecidableEq

/-- One wire event on the communication channel: `send` writes a command
with no reply; `query` writes a command and consumes one reply. -/
inductive Event where
  | send (cmd : String)
  | query (cmd : String) (reply : String)
deriving DecidableEq

/-! ### Python string methods, re-implemented over `List Char` -/

/-- Python `str.lower()` (ASCII case folding, as used by the drivers). -/
def pyLower (s : String) : String := ⟨s.data.map Char.toLower⟩

/-- Drop leading whitespace characters. -/
def dropWhileWs : List Char → List Char
  | [] => []
  | c :: rest => if c.isWhitespace then dropWhileWs rest else c :: rest

/-- Python `str.strip()`: remove leading and trailing whitespace. -/
def pyStrip (s : String) : String :=
  ⟨(dropWhileWs ((dropWhileWs s.data).reverse)).reverse⟩

/-- `leadsWith pat s` is true when `pat` is an initial segment of `s`. -/
def leadsWith : List Char → List Char → Bool
  | [], _ => true
  | _ :: _, [] => false
  | p :: ps, c :: cs => p == c && leadsWith ps cs

/-- `containsSub s pat` models Python `s.find(pat) != -1`. -/
def containsSub : List Char → List Char → Bool
  | [], pat => leadsWith pat []
  | c :: rest, pat => leadsWith pat (c :: rest) || containsSub rest pat

/-- Fuelled worker for `pyRemoveAll`; with fuel `≥ s.length` it removes every
non-overlapping occurrence of `pat` from `s`, left to right. -/
def removeAllAux (pat : List Char) : ℕ → List Char → List Char
  | 0, s => s
  | _ + 1, [] => []
  | fuel + 1, c :: rest =>
    if !pat.isEmpty && leadsWith pat (c :: rest) then
      removeAllAux pat fuel ((c :: rest).drop pat.length)
    else c :: removeAllAux pat fuel rest

/-- Python `s.replace(pat, "")`: delete every occurrence of `pat` in `s`. -/
def pyRemoveAll (s pat : String) : String :=
  ⟨removeAllAux pat.data s.data.length s.data⟩

/-- Python `s.split(sep)` for a one-character separator. -/
def splitSep (sep : Char) : List Char → List (List Char)
  | [] => [[]]
  | c :: rest =>
    match splitSep sep rest with
    | [] => [[]]
    | piece :: more => if c == sep then [] :: piece :: more else (c :: piece) :: more

/-! ### Numeric parsing (Python `int(...)`, `float(...)`, `numpy.fromstring`) -/

/-- Accumulate the value of a decimal digit string; fails on a non-digit. -/
def digitsVal : List Char → ℕ → Option ℕ
  | [], acc => some acc
  | c :: rest, acc =>
    if c.isDigit then digitsVal rest (acc * 10 + (c.toNat - 48)) else Option.none

/-- Value of a non-empty all-digit string. -/
def parseNatDigits (cs : List Char) : Option ℕ :=
  match cs with
  | [] => Option.none
  | _ => digitsVal cs 0

/-- Python `int(s)` on decimal strings: strip, optional sign, digits. -/
def parseIntPy (s : String) : Option ℤ :=
  match (pyStrip s).data with
  | [] => Option.none
  | '+' :: rest => (parseNatDigits rest).map (fun n => (n : ℤ))
  | '-' :: rest => (parseNatDigits rest).map (fun n => -(n : ℤ))
  | cs => (parseNatDigits cs).map (fun n => (n : ℤ))

/-- Unsigned decimal "digits[.digits]" to an exact rational. -/
def parseFloatCore (cs : List Char) : Option ℚ :=
  match splitSep '.' cs with
  | [intPart] => (parseNatDigits intPart).map (fun n => (n : ℚ))
  | [intPart, fracPart] =>
    if intPart.isEmpty && fracPart.isEmpty then Option.none
    else
      match digitsVal intPart 0, digitsVal fracPart 0 with
      | some a, some b => some ((a : ℚ) + (b : ℚ) / ((10 ^ fracPart.length : ℕ) : ℚ))
      | _, _ => Option.none
  | _ => Option.none

/-- Python `float(s)` on plain decimal strings: strip, optional sign, value. -/
def parseFloatPy (s : String) : Option ℚ :=
  match (pyStrip s).data with
  | [] => Option.none
  | '+' :: rest => parseFloatCore rest
  | '-' :: rest => (parseFloatCore rest).map Neg.neg
  | cs => parseFloatCore cs

/-- Keep the longest parsed head of a piece list (numpy stops at the first
piece that fails to parse and never raises). -/
def takeParsed : List (Option ℚ) → List ℚ
  | some q :: rest => q :: takeParsed rest
  | _ => []

/-- `numpy.fromstring(s, sep=",")`: split on commas, parse greedily, total. -/
def fromstringPy (s : String) : List ℚ :=
  takeParsed ((splitSep ',' s.data).map (fun piece => parseFloatPy ⟨piece⟩))

/-- Python `map(float, s.split(","))`, consumed eagerly: succeeds only when
every comma-separated piece parses as a float. -/
def parseFloatListStrict (s : String) : Except PyErr (List ℚ) :=
  let ps := (splitSep ',' s.data).map (fun piece => parseFloatPy ⟨piece⟩)
  if ps.all Option.isSome then Except.ok (ps.filterMap id)
  else Except.error PyErr.valueError

/-! ### SRS830 data model -/

/-- SRS830.Mode: symbolic measurement/display channel identifiers. -/
inductive Mode where
  | x | y | r | theta | xnoise | ynoise
  | aux1 | aux2 | aux3 | aux4 | ref | ch1 | ch2 | none
deriving DecidableEq

/-- An argument that Python callers may pass either as a string alias or as
an `SRS830.Mode` member. -/
inductive ModeArg where
  | str (s : String)
  | mode (m : Mode)
deriving DecidableEq

/-- `SRS830.Mode[name]`: enum member lookup by name (KeyError if absent). -/
def modeOfName (s : String) : Option Mode :=
  if s = "x" then some Mode.x
  else if s = "y" then some Mode.y
  else if s = "r" then some Mode.r
  else if s = "theta" then some Mode.theta
  else if s = "xnoise" then some Mode.xnoise
  else if s = "ynoise" then some Mode.ynoise
  else if s = "aux1" then some Mode.aux1
  else if s = "aux2" then some Mode.aux2
  else if s = "aux3" then some Mode.aux3
  else if s = "aux4" then some Mode.aux4
  else if s = "ref" then some Mode.ref
  else if s = "ch1" then some Mode.ch1
  else if s = "ch2" then some Mode.ch2
  else if s = "none" then some Mode.none
  else Option.none

/-- The `if isinstance(mode, str): mode = SRS830.Mode[mode.lower()]` prologue
shared by the SRS830 methods (KeyError on an unknown alias). -/
def normalizeMode (a : ModeArg) : Except PyErr Mode :=
  match a with
  | ModeArg.mode m => Except.ok m
  | ModeArg.str s =>
    match modeOfName (pyLower s) with
    | some m => Except.ok m
    | Option.none => Except.error PyErr.keyError

/-- SRS830._XYR_MODE_MAP = {Mode.x: 1, Mode.y: 2, Mode.r: 3}. -/
def xyrModeMap : Mode → Option ℕ
  | Mode.x => some 1
  | Mode.y => some 2
  | Mode.r => some 3
  | _ => Option.none

/-- SRS830._data_snap_modes. -/
def dataSnapModes : Mode → Option ℕ
  | Mode.x => some 1
  | Mode.y => some 2
  | Mode.r => some 3
  | Mode.theta => some 4
  | Mode.aux1 => some 5
  | Mode.aux2 => some 6
  | Mode.aux3 => some 7
  | Mode.aux4 => some 8
  | Mode.ref => some 9
  | Mode.ch1 => some 10
  | Mode.ch2 => some 11
  | _ => Option.none

/-- SRS830._valid_read_data_buffer = {Mode.ch1: 1, Mode.ch2: 2}. -/
def validReadDataBuffer : Mode → Option ℕ
  | Mode.ch1 => some 1
  | Mode.ch2 => some 2
  | _ => Option.none

/-- SRS830.BufferMode (IntEnum): one_shot = 0, loop = 1. -/
inductive BufferMode where
  | one_shot
  | loop
deriving DecidableEq

/-- Integer value of a BufferMode member. -/
def bufVal : BufferMode → ℕ
  | BufferMode.one_shot => 0
  | BufferMode.loop => 1

/-- A Python number as passed to `set_offset_expand`: either an int
or a float (no Python value is an instance of both). -/
inductive PyNum where
  | int (n : ℤ)
  | float (q : ℚ)
deriving DecidableEq

/-- Python `isinstance(v, int)`. -/
def isInstInt : PyNum → Bool
  | PyNum.int _ => true
  | PyNum.float _ => false

/-- Python `isinstance(v, float)`. -/
def isInstFloat : PyNum → Bool
  | PyNum.int _ => false
  | PyNum.float _ => true

/-- Numeric value carried by a PyNum. -/
def pyNumVal : PyNum → ℚ
  | PyNum.int n => (n : ℚ)
  | PyNum.float q => q

/-- The `sample_rate` setter argument: a number or a string. -/
inductive SRVal where
  | num (q : ℚ)
  | str (s : String)
deriving DecidableEq

/-- VALID_SAMPLE_RATES = [2.0 ** n for n in range(-4, 10)] (exact values). -/
def VALID_SAMPLE_RATES : List ℚ :=
  [1/16, 1/8, 1/4, 1/2, 1, 2, 4, 8, 16, 32, 64, 128, 256, 512]

/-- Python `list.index` (only called on present elements; 0 past the end). -/
def listIndex : List ℚ → ℚ → ℕ
  | [], _ => 0
  | a :: rest, q => if a = q then 0 else listIndex rest q + 1

/-! ### SRS830 property setters and commands -/

/-- The `phase` setter body after rescaling to degrees: reject outside the
device range, else send a single `PHAS` command. -/
def phase_set (v : ℚ) : List Event × Except PyErr Unit :=
  if 730 ≤ v ∨ v < -360 then ([], Except.error PyErr.valueError)
  else ([Event.send ("PHAS " ++ toString v)], Except.ok ())

/-- The `sample_rate` setter.  For a string equal (case-insensitively) to
"trigger" the source sends `SRAT 14` and then falls through to the
`newval in VALID_SAMPLE_RATES` membership test, which a string never
passes, so it raises ValueError after the send. -/
def sample_rate_set (v : SRVal) : List Event × Except PyErr Unit :=
  match v with
  | SRVal.str s =>
    let low := pyLower s
    let pre := if low = "trigger" then [Event.send "SRAT 14"] else []
    (pre, Except.error PyErr.valueError)
  | SRVal.num q =>
    if q ∈ VALID_SAMPLE_RATES then
      ([Event.send ("SRAT " ++ toString (listIndex VALID_SAMPLE_RATES q))], Except.ok ())
    else ([], Except.error PyErr.valueError)

/-- The `buffer_mode` setter called with an actual BufferMode member
(the isinstance TypeError branch cannot fire): a single `SEND` command. -/
def buffer_mode_set (b : BufferMode) : List Event :=
  [Event.send ("SEND " ++ toString (bufVal b))]

/-- The `data_transfer` setter: `FAST 2` when enabled, `FAST 0` otherwise. -/
def data_transfer_set (b : Bool) : List Event :=
  [Event.send ("FAST " ++ toString (if b then (2 : ℕ) else 0))]

/-- `start_scan`: send `STRD`. -/
def start_scan : List Event := [Event.send "STRD"]

/-- `pause`: send `PAUS`. -/
def pause : List Event := [Event.send "PAUS"]

/-- `clear_data_buffer`: send `REST`. -/
def clear_data_buffer : List Event := [Event.send "REST"]

/-- The retry loop of `num_data_points`: up to `fuel` `SPTS?` queries,
stopping at the first reply that is non-empty after stripping.  Returns the
trace, the final (stripped) response, and the next query position. -/
def num_data_points_loop (env : ℕ → String) : ℕ → ℕ → List Event × String × ℕ
  | qpos, 0 => ([], "", qpos)
  | qpos, fuel + 1 =>
    let raw := env qpos
    let resp := pyStrip raw
    if resp = "" then
      let res := num_data_points_loop env (qpos + 1) fuel
      (Event.query "SPTS?" raw :: res.1, res.2.1, res.2.2)
    else ([Event.query "SPTS?" raw], resp, qpos + 1)

/-- `num_data_points`: retry `SPTS?` while the stripped reply is empty and
fewer than 10 attempts were made; raise IOError if still empty, else
return `int(resp)`. -/
def num_data_points (env : ℕ → String) (qpos : ℕ) :
    List Event × Except PyErr ℤ × ℕ :=
  let res := num_data_points_loop env qpos 10
  (res.1,
   if res.2.1 = "" then Except.error PyErr.ioError
   else
     match parseIntPy res.2.1 with
     | some n => Except.ok n
     | Option.none => Except.error PyErr.valueError,
   res.2.2)

/-- `read_data_buffer`: normalize and validate the channel, discover the
point count, then read the whole buffer with one `TRCA?` query parsed by
`numpy.fromstring(..., sep=",")` on the stripped reply. -/
def read_data_buffer (channel : ModeArg) (env : ℕ → String) (qpos : ℕ) :
    List Event × Except PyErr (List ℚ) × ℕ :=
  match normalizeMode channel with
  | Except.error e => ([], Except.error e, qpos)
  | Except.ok m =>
    match validReadDataBuffer m with
    | Option.none => ([], Except.error PyErr.valueError, qpos)
    | some c =>
      let res := num_data_points env qpos
      match res.2.1 with
      | Except.error e => (res.1, Except.error e, res.2.2)
      | Except.ok n =>
        let raw := env res.2.2
        (res.1 ++ [Event.query ("TRCA?" ++ toString c ++ ",0," ++ toString n) raw],
         Except.ok (fromstringPy (pyStrip raw)), res.2.2 + 1)

/-- `data_snap`.  The source normalizes `mode1`, then — whenever `mode2` is a
string — evaluates `mode1.lower()` (a typo for `mode2.lower()`): `mode1` is by
then an `SRS830.Mode` member, which has no `lower` attribute, so Python raises
AttributeError.  The integer translation also uses `_XYR_MODE_MAP` (a typo for
`_data_snap_modes`), so non-{x,y,r} modes raise KeyError. -/
def data_snap (mode1 mode2 : ModeArg) (env : ℕ → String) (qpos : ℕ) :
    List Event × Except PyErr (List ℚ) :=
  match normalizeMode mode1 with
  | Except.error e => ([], Except.error e)
  | Except.ok m1 =>
    match mode2 with
    | ModeArg.str _ => ([], Except.error PyErr.attributeError)
    | ModeArg.mode m2 =>
      if dataSnapModes m1 = Option.none ∨ dataSnapModes m2 = Option.none then
        ([], Except.error PyErr.valueError)
      else
        match xyrModeMap m1 with
        | Option.none => ([], Except.error PyErr.keyError)
        | some c1 =>
          match xyrModeMap m2 with
          | Option.none => ([], Except.error PyErr.keyError)
          | some c2 =>
            if c1 = c2 then ([], Except.error PyErr.valueError)
            else
              let raw := env qpos
              ([Event.query ("SNAP? " ++ toString c1 ++ "," ++ toString c2) raw],
               parseFloatListStrict raw)

/-- `set_offset_expand`.  The guard
`not isinstance(offset, int) or not isinstance(offset, float)` is satisfied by
every Python value, so for any valid mode the TypeError is raised before the
later validation and the `OEXP` send. -/
def set_offset_expand (modeArg : ModeArg) (offset expand : PyNum) :
    List Event × Except PyErr Unit :=
  match normalizeMode modeArg with
  | Except.error e => ([], Except.error e)
  | Except.ok m =>
    match xyrModeMap m with
    | Option.none => ([], Except.error PyErr.valueError)
    | some mcode =>
      if !isInstInt offset || !isInstFloat offset then
        ([], Except.error PyErr.typeError)
      else if !isInstInt expand || !isInstFloat expand then
        ([], Except.error PyErr.typeError)
      else if 105 < pyNumVal offset ∨ pyNumVal offset < -105 then
        ([], Except.error PyErr.valueError)
      else if pyNumVal expand ∈ ([1, 10, 100] : List ℚ) then
        ([Event.send ("OEXP " ++ toString mcode ++ "," ++ toString (pyNumVal offset)
            ++ "," ++ toString (listIndex [1, 10, 100] (pyNumVal expand)))],
         Except.ok ())
      else ([], Except.error PyErr.valueError)

/-- A key of one of the `set_channel_display` dictionaries.  The dictionaries
are keyed by `SRS830.Mode` members; the source ends up looking one of them up
with an integer display code, which never equals a Mode member. -/
inductive PKey where
  | mode (m : Mode)
  | int (n : ℕ)
deriving DecidableEq

/-- Python dict lookup on an association list (None models KeyError). -/
def lookupP : List (PKey × ℕ) → PKey → Option ℕ
  | [], _ => Option.none
  | p :: rest, k => if p.1 = k then some p.2 else lookupP rest k

/-- SRS830._valid_channel_display, one dict per channel. -/
def validChannelDisplayTbls : List (List (PKey × ℕ)) :=
  [[(PKey.mode Mode.x, 0), (PKey.mode Mode.r, 1), (PKey.mode Mode.xnoise, 2),
    (PKey.mode Mode.aux1, 3), (PKey.mode Mode.aux2, 4)],
   [(PKey.mode Mode.y, 0), (PKey.mode Mode.theta, 1), (PKey.mode Mode.ynoise, 2),
    (PKey.mode Mode.aux3, 3), (PKey.mode Mode.aux4, 4)]]

/-- SRS830._valid_channel_ratio, one dict per channel. -/
def validChannelRatioTbls : List (List (PKey × ℕ)) :=
  [[(PKey.mode Mode.none, 0), (PKey.mode Mode.aux1, 1), (PKey.mode Mode.aux2, 2)],
   [(PKey.mode Mode.none, 0), (PKey.mode Mode.aux3, 1), (PKey.mode Mode.aux4, 2)]]

/-- SRS830._valid_channel = {Mode.ch1: 1, Mode.ch2: 2}. -/
def validChannelMap : Mode → Option ℕ
  | Mode.ch1 => some 1
  | Mode.ch2 => some 2
  | _ => Option.none

/-- `set_channel_display`.  After validating channel, display and ratio
against their per-channel dictionaries, the source rebinds `display` to its
integer code and then evaluates
`ratio = self._valid_channel_ratio[channel-1][display]` — indexing the
Mode-keyed ratio dictionary with the integer display code, a KeyError. -/
def set_channel_display (channel display ratioArg : ModeArg) :
    List Event × Except PyErr Unit :=
  match normalizeMode channel with
  | Except.error e => ([], Except.error e)
  | Except.ok chm =>
    match normalizeMode display with
    | Except.error e => ([], Except.error e)
    | Except.ok dm =>
      match normalizeMode ratioArg with
      | Except.error e => ([], Except.error e)
      | Except.ok rm =>
        match validChannelMap chm with
        | Option.none => ([], Except.error PyErr.valueError)
        | some c =>
          let dTbl := validChannelDisplayTbls.getD (c - 1) []
          let rTbl := validChannelRatioTbls.getD (c - 1) []
          if lookupP dTbl (PKey.mode dm) = Option.none then
            ([], Except.error PyErr.valueError)
          else if lookupP rTbl (PKey.mode rm) = Option.none then
            ([], Except.error PyErr.valueError)
          else
            match lookupP dTbl (PKey.mode dm) with
            | Option.none => ([], Except.error PyErr.keyError)
            | some dcode =>
              match lookupP rTbl (PKey.int dcode) with
              | Option.none => ([], Except.error PyErr.keyError)
              | some rcode =>
                ([Event.send ("DDEF " ++ toString c ++ "," ++ toString dcode
                    ++ "," ++ toString rcode)],
                 Except.ok ())

/-! ### SRS830 acquisition sequencer -/

/-- `init(sample_rate, buffer_mode)`: clear the buffer, set the sample rate
(ValueError propagates before the buffer-mode write), set the buffer mode. -/
def init_meas (sr : SRVal) (bm : BufferMode) : List Event × Except PyErr Unit :=
  let s := sample_rate_set sr
  match s.2 with
  | Except.error e => (clear_data_buffer ++ s.1, Except.error e)
  | Except.ok _ => (clear_data_buffer ++ s.1 ++ buffer_mode_set bm, Except.ok ())

/-- `start_data_transfer`: enable FAST2 transfer, then start the scan. -/
def start_data_transfer : List Event := data_transfer_set true ++ start_scan

/-- Body of `take_measurement` after the argument checks: init, arm, (sleep),
pause, the deliberately masked `num_data_points` (its failure is swallowed by
a bare `except`), then the two buffer reads. -/
def take_measurement_body (sr : ℚ) (env : ℕ → String) :
    List Event × Except PyErr (List ℚ × List ℚ) :=
  let i := init_meas (SRVal.num sr) BufferMode.one_shot
  match i.2 with
  | Except.error e => (i.1, Except.error e)
  | Except.ok _ =>
    let pre := i.1 ++ start_data_transfer ++ pause
    let m := num_data_points env 0
    let b1 := read_data_buffer (ModeArg.str "ch1") env m.2.2
    match b1.2.1 with
    | Except.error e => (pre ++ m.1 ++ b1.1, Except.error e)
    | Except.ok l1 =>
      let b2 := read_data_buffer (ModeArg.str "ch2") env b1.2.2
      match b2.2.1 with
      | Except.error e => (pre ++ m.1 ++ b1.1 ++ b2.1, Except.error e)
      | Except.ok l2 => (pre ++ m.1 ++ b1.1 ++ b2.1, Except.ok (l1, l2))

/-- `take_measurement(sample_rate, num_samples)`.  `float(num_samples)` is
compared against 16383 before any I/O; then
`sample_time = math.ceil(num_samples / sample_rate)` (ZeroDivisionError when
the rate is 0, still before any I/O; the computed wait only feeds
`time.sleep` and has no channel-visible effect), then the sequencer body. -/
def take_measurement (sr ns : ℚ) (env : ℕ → String) :
    List Event × Except PyErr (List ℚ × List ℚ) :=
  if 16383 < ns then ([], Except.error PyErr.valueError)
  else if sr = 0 then ([], Except.error PyErr.zeroDivError)
  else take_measurement_body sr env

/-! ### TC200 temperature controller -/

/-- TC200.Mode (flufl IntEnum): normal = 0, cycle = 1. -/
inductive TCMode where
  | normal
  | cycle
deriving DecidableEq

/-- `check_command`: classify a raw reply before any parsing.  A reply
containing `CMD_NOT_DEFINED` yields that sentinel; else one containing
`CMD_ARG_INVALID` yields that sentinel; else the payload is the reply with
the originating command text, the terminator `"\r"` and the end terminator
`">"` removed (each via `str.replace(..., "")`). -/
def check_command (command response : String) : String :=
  if containsSub response.data "CMD_NOT_DEFINED".data then "CMD_NOT_DEFINED"
  else if containsSub response.data "CMD_ARG_INVALID".data then "CMD_ARG_INVALID"
  else pyRemoveAll (pyRemoveAll (pyRemoveAll response command) "\r") ">"

/-- `TC200.Mode[code]`: member lookup by integer value. -/
def tcModeOfCode (n : ℤ) : Except PyErr TCMode :=
  if n = 0 then Except.ok TCMode.normal
  else if n = 1 then Except.ok TCMode.cycle
  else Except.error PyErr.valueError

/-- The TC200 `mode` getter applied to the `check_command` result of a
`stat?` query: on the sentinel it falls through and returns Python None;
otherwise it computes `response_code = (int(response) << 1) % 2` (the shift
is multiplication by 2) and returns `TC200.Mode[response_code]`. -/
def tc200_mode_get (payload : String) : Except PyErr (Option TCMode) :=
  if payload = "CMD_NOT_DEFINED" then Except.ok Option.none
  else
    match parseIntPy payload with
    | Option.none => Except.error PyErr.valueError
    | some n => (tcModeOfCode ((n * 2) % 2)).map some

deriving instance DecidableEq for Except

/-! ### Helper evaluation lemmas -/

/-- Setting a 1 Hz sample rate sends `SRAT 4` (index 4 in the rate table). -/
theorem sample_rate_set_one :
    sample_rate_set (SRVal.num 1) = ([Event.send "SRAT 4"], Except.ok ()) := by
  simp [sample_rate_set, VALID_SAMPLE_RATES, listIndex]
  decide

/-- `init(1, one_shot)` sends `REST`, `SRAT 4`, `SEND 0`. -/
theorem init_meas_one :
    init_meas (SRVal.num 1) BufferMode.one_shot =
      ([Event.send "REST", Event.send "SRAT 4", Event.send "SEND 0"], Except.ok ()) := by
  simp [init_meas, sample_rate_set_one]
  decide

/-- When the first `SPTS?` reply is non-empty after stripping, the retry loop
stops after one query. -/
theorem ndp_loop_first (env : ℕ → String) (qpos : ℕ) (h : ¬ pyStrip (env qpos) = "") :
    num_data_points_loop env qpos 10 =
      ([Event.query "SPTS?" (env qpos)], pyStrip (env qpos), qpos + 1) := by
  have hstep : num_data_points_loop env qpos 10 =
      if pyStrip (env qpos) = "" then
        (Event.query "SPTS?" (env qpos) :: (num_data_points_loop env (qpos + 1) 9).1,
         (num_data_points_loop env (qpos + 1) 9).2.1,
         (num_data_points_loop env (qpos + 1) 9).2.2)
      else ([Event.query "SPTS?" (env qpos)], pyStrip (env qpos), qpos + 1) := rfl
  rw [hstep, if_neg h]

/-- `num_data_points` on a first non-empty, integer-parsable reply. -/
theorem ndp_first (env : ℕ → String) (qpos : ℕ) (n : ℤ)
    (h : ¬ pyStrip (env qpos) = "") (hp : parseIntPy (pyStrip (env qpos)) = some n) :
    num_data_points env qpos =
      ([Event.query "SPTS?" (env qpos)], Except.ok n, qpos + 1) := by
  unfold num_data_points
  rw [ndp_loop_first env qpos h]
  simp [h, hp]

/-- `num_data_points` on a first non-empty reply, whether or not it parses. -/
theorem ndp_first_any (env : ℕ → String) (qpos : ℕ) (h : ¬ pyStrip (env qpos) = "") :
    num_data_points env qpos =
      ([Event.query "SPTS?" (env qpos)],
       (match parseIntPy (pyStrip (env qpos)) with
        | some n => Except.ok n
        | Option.none => Except.error PyErr.valueError),
       qpos + 1) := by
  unfold num_data_points
  rw [ndp_loop_first env qpos h]
  simp [h]

/-- A successful `read_data_buffer`: one point-count query, one `TRCA?` read. -/
theorem rdb_first (chs : String) (m : Mode) (c : ℕ) (env : ℕ → String) (qpos : ℕ) (n : ℤ)
    (hn : normalizeMode (ModeArg.str chs) = Except.ok m)
    (hc : validReadDataBuffer m = some c)
    (h : ¬ pyStrip (env qpos) = "") (hp : parseIntPy (pyStrip (env qpos)) = some n) :
    read_data_buffer (ModeArg.str chs) env qpos =
      ([Event.query "SPTS?" (env qpos),
        Event.query ("TRCA?" ++ toString c ++ ",0," ++ toString n) (env (qpos + 1))],
       Except.ok (fromstringPy (pyStrip (env (qpos + 1)))), qpos + 2) := by
  unfold read_data_buffer
  simp only [hn]
  simp only [hc]
  rw [ndp_first env qpos n h hp]
  simp

/-- The retry loop issues at most `fuel` queries and all of them are `SPTS?`. -/
theorem ndp_loop_len (env : ℕ → String) :
    ∀ fuel qpos, (num_data_points_loop env qpos fuel).1.length ≤ fuel ∧
      ∀ e ∈ (num_data_points_loop env qpos fuel).1, ∃ s, e = Event.query "SPTS?" s := by
  intro fuel
  induction fuel with
  | zero =>
    intro qpos
    exact ⟨Nat.le_refl 0, fun e he => absurd he (List.not_mem_nil e)⟩
  | succ fuel ih =>
    intro qpos
    by_cases h : pyStrip (env qpos) = ""
    · constructor
      · simp only [num_data_points_loop, h, ite_true, List.length_cons]
        exact Nat.succ_le_succ (ih (qpos + 1)).1
      · intro e he
        simp only [num_data_points_loop, h, ite_true, List.mem_cons] at he
        rcases he with he | he
        · exact ⟨env qpos, he⟩
        · exact (ih (qpos + 1)).2 e he
    · constructor
      · simp [num_data_points_loop, h]
      · intro e he
        simp only [num_data_points_loop, h, ite_false, List.mem_singleton] at he
        exact ⟨env qpos, he⟩

/-- If every consulted reply strips to empty, the loop ends with an empty
response. -/
theorem ndp_loop_all_empty (env : ℕ → String) :
    ∀ fuel qpos, (∀ i, i < fuel → pyStrip (env (qpos + i)) = "") →
      (num_data_points_loop env qpos fuel).2.1 = "" := by
  intro fuel
  induction fuel with
  | zero => intro qpos _; rfl
  | succ fuel ih =>
    intro qpos h
    have h0 : pyStrip (env qpos) = "" := by simpa using h 0 (Nat.succ_pos fuel)
    simp only [num_data_points_loop, h0, ite_true]
    exact ih (qpos + 1) (fun i hi => by
      have hh := h (i + 1) (Nat.succ_lt_succ hi)
      rwa [show qpos + (i + 1) = qpos + 1 + i by omega] at hh)

/-- The loop stops at the first reply that is non-empty after stripping. -/
theorem ndp_loop_stops (env : ℕ → String) :
    ∀ fuel qpos k, k < fuel →
      (∀ i, i < k → pyStrip (env (qpos + i)) = "") →
      ¬ pyStrip (env (qpos + k)) = "" →
      (num_data_points_loop env qpos fuel).1.length = k + 1 ∧
      (num_data_points_loop env qpos fuel).2.1 = pyStrip (env (qpos + k)) := by
  intro fuel
  induction fuel with
  | zero => intro qpos k hk; exact absurd hk (Nat.not_lt_zero k)
  | succ fuel ih =>
    intro qpos k hk hemp hne
    cases k with
    | zero =>
      have h0 : ¬ pyStrip (env qpos) = "" := by simpa using hne
      constructor
      · simp [num_data_points_loop, h0]
      · simp [num_data_points_loop, h0]
    | succ j =>
      have h0 : pyStrip (env qpos) = "" := by simpa using hemp 0 (Nat.succ_pos j)
      have hrec := ih (qpos + 1) j (Nat.lt_of_succ_lt_succ hk)
        (fun i hi => by
          have hh := hemp (i + 1) (Nat.succ_lt_succ hi)
          rwa [show qpos + (i + 1) = qpos + 1 + i by omega] at hh)
        (by rwa [show qpos + 1 + j = qpos + (j + 1) by omega])
      constructor
      · simp only [num_data_points_loop, h0, ite_true, List.length_cons, hrec.1]
      · simp only [num_data_points_loop, h0, ite_true]
        rw [hrec.2, show qpos + 1 + j = qpos + (j + 1) by omega]

/-! ### Claim theorems -/

/-- C1 (counterexample): the claim quantifies over every channel behaviour,
but on a channel that always replies with the empty string the channel-1
buffer read exhausts its bounded point-count retry and `take_measurement`
raises IOError instead of returning a pair of numeric sequences. -/
theorem take_measurement_empty_channel_raises :
    (take_measurement 1 10 (fun _ => "")).2 = Except.error PyErr.ioError := by
  unfold take_measurement
  rw [if_neg (by norm_num), if_neg (by norm_num)]
  unfold take_measurement_body
  rw [init_meas_one]
  decide

/-- C1 (amended): for every channel behaviour whose consulted point-count
replies are non-empty after stripping (with the two replies feeding the
buffer reads parsing as integers; the reply to the masked query need not
parse), `take_measurement(1, 10)` issues, in order: `REST`, `SRAT 4`,
`SEND 0`, `FAST 2`, `STRD`, then after the computed wait `PAUS`, the masked
point-count query (whose failure never propagates), then the channel-1
buffer read (point-count query then `TRCA?1`) and the channel-2 buffer read
(point-count query then `TRCA?2`), and returns the pair of parsed
channel-1 and channel-2 sample sequences. -/
theorem take_measurement_command_order (env : ℕ → String) (n1 n3 : ℤ)
    (h0 : ¬ pyStrip (env 0) = "")
    (h1 : ¬ pyStrip (env 1) = "") (hp1 : parseIntPy (pyStrip (env 1)) = some n1)
    (h3 : ¬ pyStrip (env 3) = "") (hp3 : parseIntPy (pyStrip (env 3)) = some n3) :
    take_measurement 1 10 env =
      ([Event.send "REST", Event.send "SRAT 4", Event.send "SEND 0",
        Event.send "FAST 2", Event.send "STRD", Event.send "PAUS",
        Event.query "SPTS?" (env 0),
        Event.query "SPTS?" (env 1),
        Event.query ("TRCA?1,0," ++ toString n1) (env 2),
        Event.query "SPTS?" (env 3),
        Event.query ("TRCA?2,0," ++ toString n3) (env 4)],
       Except.ok (fromstringPy (pyStrip (env 2)), fromstringPy (pyStrip (env 4)))) := by
  have e1 : ("TRCA?" ++ toString (1 : ℕ)) ++ ",0," = "TRCA?1,0," := by decide
  have e2 : ("TRCA?" ++ toString (2 : ℕ)) ++ ",0," = "TRCA?2,0," := by decide
  have e3 : "FAST " ++ toString (2 : ℕ) = "FAST 2" := by decide
  unfold take_measurement
  rw [if_neg (by norm_num), if_neg (by norm_num)]
  unfold take_measurement_body
  rw [init_meas_one]
  simp only [ndp_first_any env 0 h0, Nat.zero_add]
  rw [rdb_first "ch1" Mode.ch1 1 env 1 n1 (by decide) (by decide) h1 hp1]
  simp only []
  norm_num
  rw [rdb_first "ch2" Mode.ch2 2 env 3 n3 (by decide) (by decide) h3 hp3]
  simp [start_data_transfer, data_transfer_set, start_scan, pause, e1, e2, e3]

/-- C1 (witness): a concrete channel whose masked point-count reply "zz"
does not even parse — the masked failure is swallowed — and whose other
replies are "7"; the full command trace and the returned pair. -/
theorem take_measurement_command_order_witness :
    take_measurement 1 10 (fun i => if i = 0 then "zz" else "7") =
      ([Event.send "REST", Event.send "SRAT 4", Event.send "SEND 0",
        Event.send "FAST 2", Event.send "STRD", Event.send "PAUS",
        Event.query "SPTS?" "zz", Event.query "SPTS?" "7",
        Event.query "TRCA?1,0,7" "7", Event.query "SPTS?" "7",
        Event.query "TRCA?2,0,7" "7"],
       Except.ok ([7], [7])) := by
  rw [take_measurement_command_order (fun i => if i = 0 then "zz" else "7") 7 7
    (by decide) (by decide) (by decide) (by decide) (by decide)]
  decide

/-- C2: for every sample_rate and every channel behaviour, a sample count
above 16383 makes `take_measurement` raise ValueError with an empty trace —
no send, query, or read happens before the raise. -/
theorem take_measurement_sample_limit (sr ns : ℚ) (env : ℕ → String)
    (h : 16383 < ns) :
    take_measurement sr ns env = ([], Except.error PyErr.valueError) := by
  unfold take_measurement
  rw [if_pos h]

/-- C2 (witness): `take_measurement(sample_rate=1, num_samples=16384)` fails
with the channel untouched. -/
theorem take_measurement_sample_limit_witness :
    take_measurement 1 16384 (fun _ => "") = ([], Except.error PyErr.valueError) :=
  take_measurement_sample_limit 1 16384 (fun _ => "") (by decide)

/-- C3: `data_snap('x','y')`, `data_snap('y','x')` and `data_snap('x','x')`
all raise AttributeError before any I/O — the source evaluates
`mode1.lower()` on an `SRS830.Mode` member whenever `mode2` is a string —
instead of succeeding (resp. failing with ValueError) as the claim states. -/
theorem data_snap_string_args_crash :
    data_snap (ModeArg.str "x") (ModeArg.str "y") (fun _ => "") 0 =
      ([], Except.error PyErr.attributeError) ∧
    data_snap (ModeArg.str "y") (ModeArg.str "x") (fun _ => "") 0 =
      ([], Except.error PyErr.attributeError) ∧
    data_snap (ModeArg.str "x") (ModeArg.str "x") (fun _ => "") 0 =
      ([], Except.error PyErr.attributeError) :=
  ⟨rfl, rfl, rfl⟩

/-- C4: the phase setter accepts exactly the half-open interval
[-360, 730) degrees: inside it, a single `PHAS` send and no error; outside
it, a ValueError and nothing written.  In particular -360 is accepted and
730 is rejected. -/
theorem phase_setter_halfopen (v : ℚ) :
    phase_set v =
      if -360 ≤ v ∧ v < 730
      then ([Event.send ("PHAS " ++ toString v)], Except.ok ())
      else ([], Except.error PyErr.valueError) := by
  unfold phase_set
  by_cases hcond : -360 ≤ v ∧ v < 730
  · have hno : ¬ (730 ≤ v ∨ v < -360) := by
      push_neg
      exact ⟨hcond.2, hcond.1⟩
    rw [if_neg hno, if_pos hcond]
  · have hyes : 730 ≤ v ∨ v < -360 := by
      rcases not_and_or.mp hcond with hc | hc
      · exact Or.inr (lt_of_not_le hc)
      · exact Or.inl (le_of_not_lt hc)
    rw [if_pos hyes, if_neg hcond]

/-- C5: for every raw reply, `check_command` classifies before parsing:
a reply containing `CMD_NOT_DEFINED` yields that sentinel (which parses as
neither an int nor a float, so never as a numeric value); else one
containing `CMD_ARG_INVALID` yields that sentinel; else the payload is the
reply with the command echo, the terminator `"\r"` and the end terminator
`">"` removed. -/
theorem check_command_classification (command response : String) :
    (containsSub response.data "CMD_NOT_DEFINED".data = true →
      check_command command response = "CMD_NOT_DEFINED") ∧
    (containsSub response.data "CMD_NOT_DEFINED".data = false →
      containsSub response.data "CMD_ARG_INVALID".data = true →
      check_command command response = "CMD_ARG_INVALID") ∧
    (containsSub response.data "CMD_NOT_DEFINED".data = false →
      containsSub response.data "CMD_ARG_INVALID".data = false →
      check_command command response =
        pyRemoveAll (pyRemoveAll (pyRemoveAll response command) "\r") ">") ∧
    parseIntPy "CMD_NOT_DEFINED" = Option.none ∧
    parseFloatPy "CMD_NOT_DEFINED" = Option.none := by
  refine ⟨?_, ?_, ?_, by decide, by decide⟩
  · intro h
    unfold check_command
    rw [if_pos h]
  · intro h1 h2
    unfold check_command
    rw [if_neg (by simp [h1]), if_pos h2]
  · intro h1 h2
    unfold check_command
    rw [if_neg (by simp [h1]), if_neg (by simp [h2])]

/-- C5 (witness): a sentinel reply, a rejected-argument reply, and a normal
reply whose command echo and terminators are stripped to the payload. -/
theorem check_command_classification_witness :
    check_command "stat?" "CMD_NOT_DEFINED>" = "CMD_NOT_DEFINED" ∧
    check_command "freq?" "freq?CMD_ARG_INVALID\r>" = "CMD_ARG_INVALID" ∧
    check_command "stat?" "stat?54\r>" = "54" := by
  refine ⟨(check_command_classification "stat?" "CMD_NOT_DEFINED>").1 (by decide),
          (check_command_classification "freq?" "freq?CMD_ARG_INVALID\r>").2.1
            (by decide) (by decide), ?_⟩
  rw [(check_command_classification "stat?" "stat?54\r>").2.2.1 (by decide) (by decide)]
  decide

/-- C6: setting the sample rate to "trigger" first sends `SRAT 14` and then
falls through to the numeric membership test, which a string never passes,
so the setter raises ValueError after having written to the channel —
contrary to the claim of exactly one write and no error. -/
theorem sample_rate_trigger_slip :
    sample_rate_set (SRVal.str "trigger") =
      ([Event.send "SRAT 14"], Except.error PyErr.valueError) := rfl

/-- C7: for valid channel/display/ratio triples, `set_channel_display` never
sends `DDEF`: after rebinding `display` to its integer code the source
indexes the Mode-keyed ratio dictionary with that integer, raising KeyError
(shown on both channels, with Mode and string arguments). -/
theorem set_channel_display_ratio_keyerror :
    set_channel_display (ModeArg.mode Mode.ch1) (ModeArg.mode Mode.x) (ModeArg.mode Mode.none) =
      ([], Except.error PyErr.keyError) ∧
    set_channel_display (ModeArg.str "ch2") (ModeArg.str "y") (ModeArg.str "none") =
      ([], Except.error PyErr.keyError) :=
  ⟨rfl, rfl⟩

/-- C8: `num_data_points` issues at most 10 `SPTS?` queries, stopping at the
first reply that is non-empty after stripping; if every bounded attempt
strips to empty it raises IOError; otherwise it returns the first non-empty
reply parsed as an integer. -/
theorem num_data_points_bounded_retry (env : ℕ → String) (qpos : ℕ) :
    (num_data_points env qpos).1.length ≤ 10 ∧
    (∀ e ∈ (num_data_points env qpos).1, ∃ s, e = Event.query "SPTS?" s) ∧
    ((∀ i, i < 10 → pyStrip (env (qpos + i)) = "") →
      (num_data_points env qpos).2.1 = Except.error PyErr.ioError) ∧
    (∀ k, k < 10 → (∀ i, i < k → pyStrip (env (qpos + i)) = "") →
      ¬ pyStrip (env (qpos + k)) = "" →
      (num_data_points env qpos).1.length = k + 1 ∧
      ∀ n, parseIntPy (pyStrip (env (qpos + k))) = some n →
        (num_data_points env qpos).2.1 = Except.ok n) := by
  refine ⟨(ndp_loop_len env 10 qpos).1, (ndp_loop_len env 10 qpos).2, ?_, ?_⟩
  · intro h
    have hz := ndp_loop_all_empty env 10 qpos h
    unfold num_data_points
    simp [hz]
  · intro k hk hemp hne
    have hs := ndp_loop_stops env 10 qpos k hk hemp hne
    refine ⟨hs.1, ?_⟩
    intro n hp
    unfold num_data_points
    simp [hs.2, hne, hp]

/-- C8 (witness): on a channel that immediately replies "7", exactly one
`SPTS?` query is issued and the integer 7 is returned. -/
theorem num_data_points_bounded_retry_witness :
    (num_data_points (fun _ => "7") 0).1.length = 1 ∧
    (num_data_points (fun _ => "7") 0).2.1 = Except.ok 7 := by
  have h := (num_data_points_bounded_retry (fun _ => "7") 0).2.2.2 0 (by decide)
    (fun i hi => absurd hi (Nat.not_lt_zero i)) (by decide)
  exact ⟨h.1, h.2 7 (by decide)⟩

/-- C9: for every argument combination with a valid mode (x, y or r),
`set_offset_expand` raises TypeError before sending anything: the guard
`not isinstance(offset, int) or not isinstance(offset, float)` holds for
every Python value, so no `OEXP` command is ever written. -/
theorem set_offset_expand_type_guard (a : ModeArg) (m : Mode) (c : ℕ)
    (offset expand : PyNum)
    (hn : normalizeMode a = Except.ok m) (hm : xyrModeMap m = some c) :
    set_offset_expand a offset expand = ([], Except.error PyErr.typeError) := by
  unfold set_offset_expand
  simp only [hn]
  simp only [hm]
  have hg : (!isInstInt offset || !isInstFloat offset) = true := by
    cases offset <;> rfl
  simp [hg]

/-- C9 (witness): mode x with an integer offset and expand still raises
TypeError with nothing written. -/
theorem set_offset_expand_type_guard_witness :
    set_offset_expand (ModeArg.mode Mode.x) (PyNum.int 5) (PyNum.int 1) =
      ([], Except.error PyErr.typeError) :=
  set_offset_expand_type_guard (ModeArg.mode Mode.x) Mode.x 1 (PyNum.int 5) (PyNum.int 1) rfl rfl

/-- C10: for every status payload that parses as an integer n, the TC200
mode getter returns Mode.normal, because `(n << 1) % 2` is 0 for every
integer; Mode.cycle is never returned. -/
theorem tc200_mode_always_normal (payload : String) (n : ℤ)
    (h : parseIntPy payload = some n) :
    tc200_mode_get payload = Except.ok (some TCMode.normal) := by
  have hnone : parseIntPy "CMD_NOT_DEFINED" = Option.none := by decide
  have hne : ¬ payload = "CMD_NOT_DEFINED" := by
    intro he
    rw [he, hnone] at h
    exact Option.noConfusion h
  have hz : (n * 2) % 2 = 0 := by omega
  unfold tc200_mode_get
  rw [if_neg hne, h]
  simp [tcModeOfCode, hz, Except.map]

/-- C10 (witness): the payload "54" has the cycle bit meaningless — the
getter still returns Mode.normal. -/
theorem tc200_mode_always_normal_witness :
    tc200_mode_get "54" = Except.ok (some TCMode.normal) :=
  tc200_mode_always_normal "54" 54 (by decide)
